import Mathlib

/-!
Verification development for the `ollama-ocr` application (`init.py`): a
two-stage inference workflow (image → LaTeX extraction → equation solving)
with session state `ocr_result`, `uploaded_image`, `solution_result`.

The Python source is embedded shallowly:
* session state is the structure `SessionState` (fields in the order they
  are initialized in `init_session_state`, lines 23-28);
* the network call `ollama.chat` is an oracle: a trace (list) of
  `ChatResult` values, one consumed per call, where `ChatResult.error`
  stands for any exception raised inside the call (transport failure,
  model not found, malformed response, ...);
* the decoded image produced by `PIL.Image.open` is the opaque `Img`;
  the external PNG encoder (`image.save(..., format='PNG')`) is a
  parameter `pngSave : Img → List Nat` of the functions that use it;
* each UI event handler of `sidebar_content` / `create_clear_button`
  becomes a function from state (and the oracle trace) to state.
-/

/-- Opaque decoded image object (what `PIL.Image.open` returns); its
payload is abstract pixel data. -/
structure Img where
  data : List Nat
deriving DecidableEq, Repr

/-- An uploaded file as handed over by the file-upload widget: its raw
bytes and the image that the external image library decodes from them. -/
structure UploadedFile where
  bytes : List Nat
  decoded : Img
deriving DecidableEq, Repr

/-- `Image.open(uploaded_file)` (line 100): decoding is delegated to the
external image library, so it simply yields the decoded image. -/
def imageOpen (f : UploadedFile) : Img := f.decoded

/-- Session state (`st.session_state`), fields in initialization order
(`init_session_state`, lines 23-28). -/
structure SessionState where
  ocr_result : Option String
  uploaded_image : Option Img
  solution_result : Option String
deriving DecidableEq, Repr

/-- `init_session_state` (lines 21-28): all three fields start as `None`. -/
def initState : SessionState := ⟨none, none, none⟩

/-- A Python exception raised inside `ollama.chat` (or while unwrapping
its response); carries only its message, as the code only uses `str(e)`. -/
structure PyErr where
  msg : String
deriving DecidableEq, Repr

/-- Outcome of one `ollama.chat` call: either the response content string
`response['message']['content']`, or a raised exception. -/
inductive ChatResult where
  | ok (content : String)
  | error (e : PyErr)
deriving DecidableEq, Repr

/-- The network oracle: one `ollama.chat` call consumes exactly one
element of the trace; an exhausted trace behaves as a transport failure. -/
def chat (trace : List ChatResult) : ChatResult × List ChatResult :=
  match trace with
  | [] => (ChatResult.error ⟨"connection refused"⟩, [])
  | r :: rest => (r, rest)

/-- Python truthiness of an `Optional[str]`: `None` and `""` are falsy. -/
def truthyStr (o : Option String) : Bool :=
  match o with
  | none => false
  | some s => !(s == "")

/-- Constants (lines 8-10). -/
def ACCEPTED_FORMATS : List String := ["png", "jpg", "jpeg"]

def VISION_MODEL : String := "llama3.2-vision"

def MATH_MODEL : String := "qwen2-math:1.5b"

/-- `PROMPT_TEMPLATE` (lines 12-19). -/
def PROMPT_TEMPLATE : String :=
  "Extract and convert mathematical equations from the image provided into LaTeX code.\n" ++
  "Rules you MUST follow:\n" ++
  "1. Output raw LaTeX code only\n" ++
  "2. No explanatory text\n" ++
  "3. No dollar signs ($) or delimiters\n" ++
  "4. No equation simplification\n" ++
  "5. No LaTeX preamble or document structure\n" ++
  "6. No symbol explanations"

/-- One message of an `ollama.chat` request (lines 54-58 / 70-73);
`images` is empty when the key is absent. -/
structure ChatMessage where
  role : String
  content : String
  images : List (List Nat)
deriving DecidableEq, Repr

/-- An `ollama.chat` request: model identifier plus message list. -/
structure ChatRequest where
  model : String
  messages : List ChatMessage
deriving DecidableEq, Repr

/-- The extraction request built by `process_image` (lines 52-58) from the
bytes it is handed (`image_file.getvalue()`). -/
def extractRequest (image_bytes : List Nat) : ChatRequest :=
  { model := VISION_MODEL
    messages := [{ role := "user", content := PROMPT_TEMPLATE, images := [image_bytes] }] }

/-- Python f-string rendering of an `Optional[str]` value: `None` prints
as the four characters `None`. -/
def pyFormat (o : Option String) : String :=
  match o with
  | none => "None"
  | some s => s

/-- The solve prompt (line 72): an f-string around `latex_code`. -/
def solvePrompt (latex_code : Option String) : String :=
  "Реши уравнение " ++ pyFormat latex_code ++ " и представь ответ в LaTeX."

/-- The solve request built by `solve_equation` (lines 68-74). -/
def solveRequest (latex_code : Option String) : ChatRequest :=
  { model := MATH_MODEL
    messages := [{ role := "user", content := solvePrompt latex_code, images := [] }] }

/-- `process_image` (lines 49-63): sends the extraction request, returns
the response content, and catches every exception, reporting it via
`st.error` and returning `None`. The request payload `image_file` is the
bytes handed in at line 114. -/
def process_image (image_file : List Nat) (resp : ChatResult) : Option String :=
  match resp with
  | ChatResult.ok content => some content
  | ChatResult.error _ => none

/-- `solve_equation` (lines 65-78): same shape as `process_image`, with
the solve prompt; it performs no check on `latex_code` (a `None` value
would simply be formatted into the prompt). -/
def solve_equation (latex_code : Option String) (resp : ChatResult) : Option String :=
  match resp with
  | ChatResult.ok content => some content
  | ChatResult.error _ => none

/-- The upload branch of `sidebar_content` (lines 99-101): when a file is
present, decode it and assign `st.session_state.uploaded_image`.  No other
field is written there. -/
def upload_file (s : SessionState) (f : UploadedFile) : SessionState :=
  { s with uploaded_image := some (imageOpen f) }

/-- The `Extract LaTeX code` button handler (lines 103-117): guarded by
`if st.session_state.uploaded_image:`; re-encodes the stored image as PNG
(lines 109-111), calls `process_image` on those bytes (line 114), and only
if the result is truthy stores it and resets the previous solution
(lines 115-117). Returns the new state and the remaining oracle trace. -/
def extract_click (pngSave : Img → List Nat) (s : SessionState)
    (trace : List ChatResult) : SessionState × List ChatResult :=
  match s.uploaded_image with
  | none => (s, trace)
  | some img =>
      let img_byte_arr := pngSave img
      let resp := (chat trace).1
      let rest := (chat trace).2
      let result := process_image img_byte_arr resp
      if truthyStr result then
        ({ s with ocr_result := result, solution_result := none }, rest)
      else
        (s, rest)

/-- The request that the `Extract LaTeX code` click sends (lines 106-114):
present exactly when an image is stored, and built from the PNG
re-encoding of the stored decoded image, never from the uploaded bytes. -/
def extract_request_of_click (pngSave : Img → List Nat) (s : SessionState) :
    Option ChatRequest :=
  match s.uploaded_image with
  | none => none
  | some img => some (extractRequest (pngSave img))

/-- The `Solve Equation` button handler (lines 119-123): nested inside the
`if st.session_state.uploaded_image:` block and additionally guarded by
`if st.session_state.ocr_result and ...`; only a truthy solution is
stored. -/
def solve_click (s : SessionState) (trace : List ChatResult) :
    SessionState × List ChatResult :=
  match s.uploaded_image with
  | none => (s, trace)
  | some _ =>
      if truthyStr s.ocr_result then
        let resp := (chat trace).1
        let rest := (chat trace).2
        let solution := solve_equation s.ocr_result resp
        if truthyStr solution then
          ({ s with solution_result := solution }, rest)
        else
          (s, rest)
      else (s, trace)

/-- `create_clear_button` click (lines 43-47): all three fields are set to
`None`. -/
def clearAll (_ : SessionState) : SessionState := ⟨none, none, none⟩

/-- One user-visible event of a session. Model outcomes ride on the
events that trigger a call. -/
inductive Event where
  | upload (f : UploadedFile)
  | extractClick (o : ChatResult)
  | solveClick (o : ChatResult)
  | clearClick
deriving DecidableEq, Repr

/-- The state transition performed by one event, as the handlers above
realize it. -/
def step (pngSave : Img → List Nat) (s : SessionState) (e : Event) : SessionState :=
  match e with
  | Event.upload f => upload_file s f
  | Event.extractClick o => (extract_click pngSave s [o]).1
  | Event.solveClick o => (solve_click s [o]).1
  | Event.clearClick => clearAll s

/-- The state reached from the empty initial state by a sequence of
events. -/
def run (pngSave : Img → List Nat) (events : List Event) : SessionState :=
  events.foldl (step pngSave) initState

/-! ### The result sanitizer (`display_results`, lines 131-133) -/

/-- Python `str.replace(r"\[", "")` on a character list: removes every
non-overlapping occurrence of the two-character token backslash-bracket,
scanning left to right. -/
def stripOpen : List Char → List Char
  | [] => []
  | [c] => [c]
  | a :: b :: rest =>
      if a = '\\' ∧ b = '[' then stripOpen rest
      else a :: stripOpen (b :: rest)

/-- Python `str.replace(r"\]", "")` on a character list. -/
def stripClose : List Char → List Char
  | [] => []
  | [c] => [c]
  | a :: b :: rest =>
      if a = '\\' ∧ b = ']' then stripClose rest
      else a :: stripClose (b :: rest)

/-- Line 132: `ocr_result.replace(r"\[", "").replace(r"\]", "")`. -/
def sanitizeChars (l : List Char) : List Char :=
  stripClose (stripOpen l)

/-- The sanitizer on strings, as applied before `st.latex` (line 133). -/
def sanitizeForDisplay (s : String) : String :=
  ⟨sanitizeChars s.data⟩

/-- Whether the open-delimiter token occurs in the list. -/
def hasOpenTok : List Char → Bool
  | [] => false
  | [_] => false
  | a :: b :: rest => (a = '\\' && b = '[') || hasOpenTok (b :: rest)

/-- Whether the close-delimiter token occurs in the list. -/
def hasCloseTok : List Char → Bool
  | [] => false
  | [_] => false
  | a :: b :: rest => (a = '\\' && b = ']') || hasCloseTok (b :: rest)

/-! ### `display_results` (lines 125-140) -/

/-- One rendering action issued by `display_results`. -/
inductive DisplayItem where
  | markdown (text : String)
  | codeBlock (code : String) (language : String)
  | latexRender (latex : String)
  | info (text : String)
deriving DecidableEq, Repr

/-- `display_results` (lines 125-140): reads the session state, emits
rendering actions (including the sanitized copy at line 133), and never
writes a state field; the state is returned alongside the actions to make
that explicit. -/
def display_results (s : SessionState) : SessionState × List DisplayItem :=
  match s.ocr_result with
  | some r =>
      if r == "" then
        (s, [DisplayItem.info "Upload an image and click Extract LaTeX code to see the results."])
      else
        let base := [DisplayItem.markdown "### LaTeX Code",
                     DisplayItem.codeBlock r "latex",
                     DisplayItem.markdown "### LaTeX Rendered",
                     DisplayItem.latexRender (sanitizeForDisplay r)]
        match s.solution_result with
        | some sol =>
            if sol == "" then (s, base)
            else
              (s, base ++ [DisplayItem.markdown "### Solution",
                           DisplayItem.codeBlock sol "latex",
                           DisplayItem.latexRender sol])
        | none => (s, base)
  | none =>
      (s, [DisplayItem.info "Upload an image and click Extract LaTeX code to see the results."])

/-! ### Concrete values used by witnesses and counterexamples -/

/-- A concrete PNG encoder stand-in for closed statements. -/
def pngSave0 : Img → List Nat := fun i => 137 :: i.data

/-- A concrete uploaded file whose PNG re-encoding differs from its
original bytes. -/
def fileA : UploadedFile := ⟨[1, 2, 3], ⟨[7, 7]⟩⟩

/-- A second concrete uploaded file. -/
def fileB : UploadedFile := ⟨[4, 5], ⟨[9]⟩⟩

/-- A concrete fully-populated session state (image loaded, extraction and
solution present) used in closed statements. -/
def sFull : SessionState := ⟨some "x+1=2", some ⟨[7, 7]⟩, some "x=1"⟩

/-! ### Helper lemmas -/

theorem truthyStr_isSome {o : Option String} (h : truthyStr o = true) :
    o.isSome = true := by
  cases o with
  | none => simp [truthyStr] at h
  | some s => rfl

theorem truthyStr_none_eq : truthyStr none = false := rfl

theorem truthyStr_some_eq (s : String) : truthyStr (some s) = !(s == "") := rfl

/-- The invariant of the claims: a chain of definedness between the three
session fields. -/
def stateInv (s : SessionState) : Prop :=
  (s.solution_result.isSome = true → s.ocr_result.isSome = true) ∧
  (s.ocr_result.isSome = true → s.uploaded_image.isSome = true)

theorem extract_click_fst_cases (pngSave : Img → List Nat) (s : SessionState)
    (trace : List ChatResult) :
    (extract_click pngSave s trace).1 = s ∨
    (∃ r : String, r ≠ "" ∧ s.uploaded_image.isSome = true ∧
      (extract_click pngSave s trace).1 =
        { s with ocr_result := some r, solution_result := none }) := by
  cases himg : s.uploaded_image with
  | none => left; simp [extract_click, himg]
  | some img =>
      cases ho : (chat trace).1 with
      | ok content =>
          by_cases hc : content = ""
          · left; simp [extract_click, himg, ho, process_image, truthyStr, hc]
          · right
            exact ⟨content, hc, by simp [himg],
              by simp [extract_click, himg, ho, process_image, truthyStr, hc]⟩
      | error e => left; simp [extract_click, himg, ho, process_image, truthyStr]

theorem solve_click_fst_cases (s : SessionState) (trace : List ChatResult) :
    (solve_click s trace).1 = s ∨
    (∃ r : String, truthyStr s.ocr_result = true ∧ s.uploaded_image.isSome = true ∧
      (solve_click s trace).1 = { s with solution_result := some r }) := by
  cases himg : s.uploaded_image with
  | none => left; simp [solve_click, himg]
  | some img =>
      cases hocr : truthyStr s.ocr_result with
      | false => left; simp [solve_click, himg, hocr]
      | true =>
          cases ho : (chat trace).1 with
          | ok content =>
              by_cases hc : content = ""
              · left; simp [solve_click, himg, hocr, ho, solve_equation, truthyStr_some_eq, hc]
              · right
                exact ⟨content, rfl, by simp [himg],
                  by simp [solve_click, himg, hocr, ho, solve_equation, truthyStr_some_eq, hc]⟩
          | error e => left; simp [solve_click, himg, hocr, ho, solve_equation, truthyStr_none_eq]

theorem step_preserves_stateInv (pngSave : Img → List Nat) (s : SessionState)
    (e : Event) (h : stateInv s) : stateInv (step pngSave s e) := by
  obtain ⟨h1, h2⟩ := h
  cases e with
  | upload f => exact ⟨fun hs => h1 hs, fun _ => rfl⟩
  | extractClick o =>
      show stateInv (extract_click pngSave s [o]).1
      rcases extract_click_fst_cases pngSave s [o] with heq | ⟨r, _, himg, heq⟩
      · rw [heq]; exact ⟨h1, h2⟩
      · rw [heq]; exact ⟨fun _ => rfl, fun _ => himg⟩
  | solveClick o =>
      show stateInv (solve_click s [o]).1
      rcases solve_click_fst_cases s [o] with heq | ⟨r, hocr, himg, heq⟩
      · rw [heq]; exact ⟨h1, h2⟩
      · rw [heq]; exact ⟨fun _ => truthyStr_isSome hocr, fun _ => himg⟩
  | clearClick => exact ⟨fun hx => hx, fun hx => hx⟩

/-! ### Claim theorems -/

/-- C2: every session state reachable from the empty initial state by any
sequence of events (upload, extract click with any model outcome, solve
click with any model outcome, clear) satisfies the chain: if
`solution_result` is set then `ocr_result` is set, and if `ocr_result` is
set then `uploaded_image` is set. -/
theorem reachable_state_invariant (pngSave : Img → List Nat) (events : List Event) :
    stateInv (run pngSave events) := by
  suffices h : ∀ (l : List Event) (s : SessionState), stateInv s →
      stateInv (List.foldl (step pngSave) s l) by
    exact h events initState ⟨fun hx => hx, fun hx => hx⟩
  intro l
  induction l with
  | nil => intro s hs; exact hs
  | cons e t ih => intro s hs; exact ih _ (step_preserves_stateInv pngSave s e hs)

/-- C1 counterexample: from a reachable state in which `ocr_result` and
`solution_result` are both set, uploading a new image leaves both stale
values in place — the upload branch (lines 99-101) writes only
`uploaded_image`, so the claim that loading always resets them is false. -/
theorem upload_keeps_stale_results_cex :
    (run pngSave0 [Event.upload fileA, Event.extractClick (ChatResult.ok "x+1=2"),
        Event.solveClick (ChatResult.ok "x=1"), Event.upload fileB]).ocr_result =
      some "x+1=2" ∧
    (run pngSave0 [Event.upload fileA, Event.extractClick (ChatResult.ok "x+1=2"),
        Event.solveClick (ChatResult.ok "x=1"), Event.upload fileB]).solution_result =
      some "x=1" := by decide

/-- C1 (amended): assigning a newly uploaded file (lines 99-101) sets
`uploaded_image` to the decoded image and leaves `ocr_result` and
`solution_result` unchanged, whatever their prior values; stale results
are cleared only by a later successful extraction or by the clear
button. -/
theorem upload_leaves_results_unchanged (pngSave : Img → List Nat)
    (s : SessionState) (f : UploadedFile) :
    step pngSave s (Event.upload f) = { s with uploaded_image := some (imageOpen f) } ∧
    (step pngSave s (Event.upload f)).ocr_result = s.ocr_result ∧
    (step pngSave s (Event.upload f)).solution_result = s.solution_result :=
  ⟨rfl, rfl, rfl⟩

/-- C8: the clear button (lines 43-47) resets all three fields to `None`
from every prior state, and doing it twice yields the same empty state as
doing it once. -/
theorem clear_resets_all_and_idempotent (s : SessionState) :
    (clearAll s).ocr_result = none ∧ (clearAll s).uploaded_image = none ∧
    (clearAll s).solution_result = none ∧ clearAll s = initState ∧
    clearAll (clearAll s) = clearAll s :=
  ⟨rfl, rfl, rfl, rfl, rfl⟩

/-- C3 counterexample: with `ocr_result = None` the solve click is a
silent no-op — the handler has no error outcome at all and the state and
trace are untouched — and `solve_equation` itself, invoked directly with
the unset value, performs no precondition check: it proceeds with the
model call and returns its content.  So no loud precondition error
exists; only the guard at line 119 prevents the call. -/
theorem no_precondition_error_cex :
    solve_click ⟨none, some ⟨[7, 7]⟩, none⟩ [ChatResult.ok "x = 1"] =
      (⟨none, some ⟨[7, 7]⟩, none⟩, [ChatResult.ok "x = 1"]) ∧
    solve_equation none (ChatResult.ok "x = 1") = some "x = 1" := by decide

/-- C3 (amended): invoking solve while `ocr_result` is not truthy, or
extract while `uploaded_image` is `None`, mutates no state field and
consumes no model call — but the rejection is exactly the caller-side
guard (lines 103 and 119): no precondition error is raised anywhere, and
the core `solve_equation` proceeds normally if handed an unset value. -/
theorem ungated_transitions_skip_silently (pngSave : Img → List Nat)
    (s : SessionState) (trace : List ChatResult) (c : String)
    (hocr : truthyStr s.ocr_result = false) :
    solve_click s trace = (s, trace) ∧
    (s.uploaded_image = none → extract_click pngSave s trace = (s, trace)) ∧
    solve_equation s.ocr_result (ChatResult.ok c) = some c := by
  refine ⟨?_, ?_, rfl⟩
  · cases himg : s.uploaded_image with
    | none => simp [solve_click, himg]
    | some img => simp [solve_click, himg, hocr]
  · intro hnone; simp [extract_click, hnone]

/-- C3 witness: the amended statement at the empty initial state. -/
theorem ungated_transitions_skip_silently_witness :
    truthyStr initState.ocr_result = false ∧
    solve_click initState [ChatResult.ok "x = 1"] = (initState, [ChatResult.ok "x = 1"]) ∧
    solve_equation initState.ocr_result (ChatResult.ok "x = 1") = some "x = 1" :=
  ⟨by decide,
   (ungated_transitions_skip_silently pngSave0 initState [ChatResult.ok "x = 1"] "x = 1"
      (by decide)).1,
   (ungated_transitions_skip_silently pngSave0 initState [ChatResult.ok "x = 1"] "x = 1"
      (by decide)).2.2⟩

theorem stripOpen_sublist (l : List Char) : List.Sublist (stripOpen l) l := by
  induction l using stripOpen.induct with
  | case1 => exact List.Sublist.refl _
  | case2 c => exact List.Sublist.refl _
  | case3 a b rest h ih =>
      rw [stripOpen, if_pos h]
      exact (ih.cons b).cons a
  | case4 a b rest h ih =>
      rw [stripOpen, if_neg h]
      exact ih.cons₂ a

theorem stripClose_sublist (l : List Char) : List.Sublist (stripClose l) l := by
  induction l using stripClose.induct with
  | case1 => exact List.Sublist.refl _
  | case2 c => exact List.Sublist.refl _
  | case3 a b rest h ih =>
      rw [stripClose, if_pos h]
      exact (ih.cons b).cons a
  | case4 a b rest h ih =>
      rw [stripClose, if_neg h]
      exact ih.cons₂ a

theorem stripOpen_eq_of_no_tok (l : List Char) (h : hasOpenTok l = false) :
    stripOpen l = l := by
  induction l using stripOpen.induct with
  | case1 => rfl
  | case2 c => rfl
  | case3 a b rest hab ih =>
      exfalso
      rw [hasOpenTok] at h
      simp [hab.1, hab.2] at h
  | case4 a b rest hab ih =>
      rw [hasOpenTok] at h
      simp only [Bool.or_eq_false_iff] at h
      rw [stripOpen, if_neg hab, ih h.2]

theorem stripClose_eq_of_no_tok (l : List Char) (h : hasCloseTok l = false) :
    stripClose l = l := by
  induction l using stripClose.induct with
  | case1 => rfl
  | case2 c => rfl
  | case3 a b rest hab ih =>
      exfalso
      rw [hasCloseTok] at h
      simp [hab.1, hab.2] at h
  | case4 a b rest hab ih =>
      rw [hasCloseTok] at h
      simp only [Bool.or_eq_false_iff] at h
      rw [stripClose, if_neg hab, ih h.2]

/-- C4 counterexample: the sanitizer of line 132 is not idempotent.  On
the four characters backslash, backslash, bracket, bracket, the first
pass removes the inner token and thereby creates a new one, which only a
second application removes: one application yields the two characters
backslash-bracket, a second application yields the empty string. -/
theorem sanitize_not_idempotent_cex :
    sanitizeChars ['\\', '\\', '[', '['] = ['\\', '['] ∧
    sanitizeChars (sanitizeChars ['\\', '\\', '[', '[']) = [] ∧
    sanitizeChars (sanitizeChars ['\\', '\\', '[', '[']) ≠
      sanitizeChars ['\\', '\\', '[', '['] ∧
    sanitizeForDisplay (sanitizeForDisplay "\\\\[[") ≠ sanitizeForDisplay "\\\\[[" := by
  decide

/-- C4 (amended): one application of the sanitizer only deletes
characters — its output is a sublist of its input, so every surviving
character is byte-identical and in order — and on any input containing
neither delimiter token it is the identity (hence idempotent there); full
idempotence fails because deleting a token can create a new one. -/
theorem sanitize_deletes_only_and_tokenfree_identity (l : List Char) :
    List.Sublist (sanitizeChars l) l ∧
    (hasOpenTok l = false → hasCloseTok l = false →
      sanitizeChars l = l ∧ sanitizeChars (sanitizeChars l) = sanitizeChars l) := by
  constructor
  · exact (stripClose_sublist (stripOpen l)).trans (stripOpen_sublist l)
  · intro h1 h2
    have e : sanitizeChars l = l := by
      rw [sanitizeChars, stripOpen_eq_of_no_tok l h1, stripClose_eq_of_no_tok l h2]
    refine ⟨e, ?_⟩
    rw [e]
    exact e

/-- C4 witness: the amended statement evaluated on a delimiter-free
string. -/
theorem sanitize_deletes_only_and_tokenfree_identity_witness :
    sanitizeChars ("x+1=2".data) = "x+1=2".data ∧
    List.Sublist (sanitizeChars ("x+1=2".data)) ("x+1=2".data) :=
  ⟨((sanitize_deletes_only_and_tokenfree_identity ("x+1=2".data)).2
      (by decide) (by decide)).1,
   (sanitize_deletes_only_and_tokenfree_identity ("x+1=2".data)).1⟩

/-- C5: when the single model call raised an exception, the operation
returns `None` to its caller (the exception is caught, not propagated),
exactly one element of the oracle trace is consumed (no retry), and the
click handlers leave the state completely unchanged: they return the
prior state paired with the rest of the trace.  The extraction statement
holds for every state with an image loaded — in particular with
`ocr_result` still unset — and the solve statement for every state whose
guard (line 119) lets the call happen at all. -/
theorem inference_failure_single_attempt_frame (pngSave : Img → List Nat)
    (s : SessionState) (e : PyErr) (rest : List ChatResult) (img : Img)
    (himg : s.uploaded_image = some img) :
    process_image (pngSave img) (ChatResult.error e) = none ∧
    solve_equation s.ocr_result (ChatResult.error e) = none ∧
    extract_click pngSave s (ChatResult.error e :: rest) = (s, rest) ∧
    (truthyStr s.ocr_result = true →
      solve_click s (ChatResult.error e :: rest) = (s, rest)) := by
  refine ⟨rfl, rfl, ?_, ?_⟩
  · simp [extract_click, himg, chat, process_image, truthyStr]
  · intro hocr
    cases hq : s.ocr_result with
    | none => rw [hq] at hocr; simp [truthyStr] at hocr
    | some q =>
        rw [hq, truthyStr_some_eq] at hocr
        have hq2 : q ≠ "" := by simpa using hocr
        simp [solve_click, himg, hq, chat, solve_equation, truthyStr_some_eq,
          truthyStr_none_eq, hq2]

/-- C5 witness: a failing extraction on a freshly loaded image (no
`ocr_result` yet) and a failing call pair on a fully populated state. -/
theorem inference_failure_single_attempt_frame_witness :
    extract_click pngSave0 ⟨none, some ⟨[7, 7]⟩, none⟩ [ChatResult.error ⟨"boom"⟩] =
      (⟨none, some ⟨[7, 7]⟩, none⟩, []) ∧
    extract_click pngSave0 sFull [ChatResult.error ⟨"boom"⟩] = (sFull, []) ∧
    solve_click sFull [ChatResult.error ⟨"boom"⟩] = (sFull, []) :=
  ⟨(inference_failure_single_attempt_frame pngSave0 ⟨none, some ⟨[7, 7]⟩, none⟩
      ⟨"boom"⟩ [] ⟨[7, 7]⟩ rfl).2.2.1,
   (inference_failure_single_attempt_frame pngSave0 sFull ⟨"boom"⟩ [] ⟨[7, 7]⟩
      rfl).2.2.1,
   (inference_failure_single_attempt_frame pngSave0 sFull ⟨"boom"⟩ [] ⟨[7, 7]⟩
      rfl).2.2.2 (by decide)⟩

/-- C6: with an image loaded, an extraction whose model call returns a
non-empty text `t` (the branch of lines 115-117) stores `ocr_result = t`
and resets `solution_result` to `None`, whatever the prior solution
was. -/
theorem extract_success_sets_ocr_resets_solution (pngSave : Img → List Nat)
    (s : SessionState) (t : String) (rest : List ChatResult) (img : Img)
    (himg : s.uploaded_image = some img) (ht : t ≠ "") :
    extract_click pngSave s (ChatResult.ok t :: rest) =
      ({ s with ocr_result := some t, solution_result := none }, rest) := by
  simp [extract_click, himg, chat, process_image, truthyStr_some_eq, ht]

/-- C6 witness: extraction over a state whose previous solution was set. -/
theorem extract_success_sets_ocr_resets_solution_witness :
    extract_click pngSave0 sFull [ChatResult.ok "y=3"] =
      ({ sFull with ocr_result := some "y=3", solution_result := none }, []) :=
  extract_success_sets_ocr_resets_solution pngSave0 sFull "y=3" [] ⟨[7, 7]⟩ rfl (by decide)

/-- C7: `display_results` (lines 125-140) computes the sanitized copy for
rendering only: the state it hands back is the very state it was given,
every field byte-identical. -/
theorem display_results_preserves_state (s : SessionState) :
    (display_results s).1 = s ∧
    (display_results s).1.ocr_result = s.ocr_result ∧
    (display_results s).1.uploaded_image = s.uploaded_image ∧
    (display_results s).1.solution_result = s.solution_result := by
  have h : (display_results s).1 = s := by
    unfold display_results
    repeat' split
    all_goals rfl
  exact ⟨h, by rw [h], by rw [h], by rw [h]⟩

/-- C7 witness: the frame property on a fully populated state. -/
theorem display_results_preserves_state_witness :
    (display_results sFull).1 = sFull :=
  (display_results_preserves_state sFull).1

/-- C9: a model call that succeeds with the empty string as content is
treated exactly like a failure, because lines 115 and 122 test Python
truthiness: the success branch is not taken, no field changes, and one
trace element is consumed exactly as in the failure case.  The extraction
statement holds for every state with an image loaded — in particular the
canonical first extraction with `ocr_result` still unset — and the solve
statement for every state whose guard (line 119) lets the call happen. -/
theorem empty_content_treated_like_failure (pngSave : Img → List Nat)
    (s : SessionState) (rest : List ChatResult) (img : Img)
    (himg : s.uploaded_image = some img) :
    extract_click pngSave s (ChatResult.ok "" :: rest) = (s, rest) ∧
    (truthyStr s.ocr_result = true →
      solve_click s (ChatResult.ok "" :: rest) = (s, rest)) := by
  constructor
  · simp [extract_click, himg, chat, process_image, truthyStr_some_eq]
  · intro hocr
    cases hq : s.ocr_result with
    | none => rw [hq] at hocr; simp [truthyStr] at hocr
    | some q =>
        rw [hq, truthyStr_some_eq] at hocr
        have hq2 : q ≠ "" := by simpa using hocr
        simp [solve_click, himg, hq, chat, solve_equation, truthyStr_some_eq,
          truthyStr_none_eq, hq2]

/-- C9 witness: empty model content on a freshly loaded image (no
`ocr_result` yet) and on a fully populated state. -/
theorem empty_content_treated_like_failure_witness :
    extract_click pngSave0 ⟨none, some ⟨[7, 7]⟩, none⟩ [ChatResult.ok ""] =
      (⟨none, some ⟨[7, 7]⟩, none⟩, []) ∧
    extract_click pngSave0 sFull [ChatResult.ok ""] = (sFull, []) ∧
    solve_click sFull [ChatResult.ok ""] = (sFull, []) :=
  ⟨(empty_content_treated_like_failure pngSave0 ⟨none, some ⟨[7, 7]⟩, none⟩ []
      ⟨[7, 7]⟩ rfl).1,
   (empty_content_treated_like_failure pngSave0 sFull [] ⟨[7, 7]⟩ rfl).1,
   (empty_content_treated_like_failure pngSave0 sFull [] ⟨[7, 7]⟩ rfl).2 (by decide)⟩

/-- C10: for every PNG encoder and every uploaded file, the image payload
of the extraction request is the PNG re-encoding (lines 109-111) of the
stored decoded image — and therefore differs from the originally uploaded
bytes whenever the re-encoding does. -/
theorem extraction_sends_png_reencoding (pngSave : Img → List Nat)
    (f : UploadedFile) (s : SessionState)
    (h : s.uploaded_image = some (imageOpen f)) :
    extract_request_of_click pngSave s = some (extractRequest (pngSave f.decoded)) ∧
    (extractRequest (pngSave f.decoded)).messages.map ChatMessage.images =
      [[pngSave f.decoded]] ∧
    (pngSave f.decoded ≠ f.bytes →
      (extractRequest (pngSave f.decoded)).messages.map ChatMessage.images ≠
        [[f.bytes]]) := by
  refine ⟨?_, rfl, ?_⟩
  · simp [extract_request_of_click, h, imageOpen]
  · intro hne hcontra
    simp [extractRequest] at hcontra
    exact hne hcontra

/-- C10 witness: a concrete file whose PNG re-encoding differs from its
uploaded bytes. -/
theorem extraction_sends_png_reencoding_witness :
    extract_request_of_click pngSave0 ⟨none, some fileA.decoded, none⟩ =
      some (extractRequest (pngSave0 fileA.decoded)) ∧
    pngSave0 fileA.decoded ≠ fileA.bytes ∧
    (extractRequest (pngSave0 fileA.decoded)).messages.map ChatMessage.images ≠
      [[fileA.bytes]] :=
  ⟨(extraction_sends_png_reencoding pngSave0 fileA ⟨none, some fileA.decoded, none⟩ rfl).1,
   by decide,
   (extraction_sends_png_reencoding pngSave0 fileA ⟨none, some fileA.decoded, none⟩ rfl).2.2
     (by decide)⟩
